import Mathlib

/-!
Verification of `plot_dc_analysis.py` (Pollution Hotspot Detection).

The script loads a CSV of benchmark rows into a pandas DataFrame and
computes two derived quantities:

  theoretical_normalized
    = df[TheoreticalComplexity] * (df[ActualTime].iloc[0] / df[TheoreticalComplexity].iloc[0])
  efficiency
    = (df[ActualComparisons] / df[TheoreticalComplexity] * 100).mean()

Numbers read from the CSV are modelled as exact rationals.  Division and
multiplication follow numpy float64 semantics for the special values that
zero denominators create: a nonzero finite value divided by zero yields
(signed) infinity, 0/0 yields NaN, 0 * inf yields NaN, and `Series.mean`
skips NaN entries (pandas skipna default) and returns NaN on an empty
series.  Finite arithmetic is exact (rounding is not modelled).
-/

namespace PlotDC

/-- A numpy float64 value as the script can produce it: an exact finite
rational, positive or negative infinity, or NaN. -/
inductive PF where
  | fin : ℚ → PF
  | inf : PF
  | neginf : PF
  | nan : PF
deriving DecidableEq

/-- True exactly on NaN (used to model pandas skipna). -/
def PF.isNan : PF → Bool
  | .nan => true
  | _ => false

/-- True exactly on finite values. -/
def PF.finite : PF → Bool
  | .fin _ => true
  | _ => false

/-- Scalar division a / b with numpy float64 zero-divisor semantics:
b ≠ 0 gives the exact quotient, b = 0 gives inf, neginf or NaN by the
sign of a. -/
def scalarDiv (a b : ℚ) : PF :=
  if b = 0 then
    if 0 < a then .inf else if a < 0 then .neginf else .nan
  else .fin (a / b)

/-- Multiplication of a finite scalar q by a float value, numpy
semantics: q * inf is inf, neginf or NaN by the sign of q; NaN
propagates. -/
def mulFin (q : ℚ) : PF → PF
  | .fin b => .fin (q * b)
  | .inf => if 0 < q then .inf else if q < 0 then .neginf else .nan
  | .neginf => if 0 < q then .neginf else if q < 0 then .inf else .nan
  | .nan => .nan

/-- Addition on float values, numpy semantics: inf + neginf is NaN,
NaN propagates, infinities absorb finite values. -/
def pfAdd : PF → PF → PF
  | .nan, _ => .nan
  | .fin a, .fin b => .fin (a + b)
  | .fin _, .inf => .inf
  | .fin _, .neginf => .neginf
  | .fin _, .nan => .nan
  | .inf, .fin _ => .inf
  | .inf, .inf => .inf
  | .inf, .neginf => .nan
  | .inf, .nan => .nan
  | .neginf, .fin _ => .neginf
  | .neginf, .inf => .nan
  | .neginf, .neginf => .neginf
  | .neginf, .nan => .nan

/-- Sum of a list of float values (exact, so the fold order is
immaterial for the finite case the claims use). -/
def pfSum (l : List PF) : PF := l.foldr pfAdd (.fin 0)

/-- pandas `Series.mean`: NaN entries are skipped (skipna default);
the mean of an empty (or all-NaN) series is NaN, otherwise the sum of the
remaining entries divided by their count. -/
def pfMean (l : List PF) : PF :=
  let kept := l.filter fun x => !x.isNan
  if kept.isEmpty then .nan
  else mulFin ((kept.length : ℚ))⁻¹ (pfSum kept)

/-- One CSV row of `dc_analysis_results.csv` (spec §3, MeasurementRow). -/
structure Row where
  gridSize : ℚ
  actualTime : ℚ
  stdDev : ℚ
  actualComparisons : ℚ
  theoreticalComplexity : ℚ
deriving DecidableEq

/-- Errors the script can surface, named after the Python exceptions:
FileNotFoundError from `pd.read_csv`, IndexError from `.iloc[0]` on an
empty frame, KeyError from `df[col]` on a missing column. -/
inductive Err where
  | ioError : Err
  | indexError : Err
  | keyError : Err
deriving DecidableEq

/-- Line 12 of the script, on row-structured data:
`df['TheoreticalComplexity'] * (df['ActualTime'].iloc[0] / df['TheoreticalComplexity'].iloc[0])`.
On an empty table `.iloc[0]` raises IndexError; otherwise every row's
theoreticalComplexity is multiplied by the scalar
actualTime[0] / theoreticalComplexity[0] (a float division that yields
inf/NaN rather than an error when the denominator is zero). -/
def theoretical_normalized (rows : List Row) : Except Err (List PF) :=
  match rows with
  | [] => .error .indexError
  | r0 :: _ =>
      .ok (rows.map fun r =>
        mulFin r.theoreticalComplexity (scalarDiv r0.actualTime r0.theoreticalComplexity))

/-- Line 33 of the script, on row-structured data:
`(df['ActualComparisons'] / df['TheoreticalComplexity'] * 100).mean()`.
Elementwise float division and scaling by 100, then the pandas mean. -/
def efficiency (rows : List Row) : PF :=
  pfMean (rows.map fun r =>
    mulFin 100 (scalarDiv r.actualComparisons r.theoreticalComplexity))

/-- Rescale one row's theoreticalComplexity by a constant c. -/
def scaleTheo (c : ℚ) (r : Row) : Row :=
  { r with theoreticalComplexity := c * r.theoreticalComplexity }

/-- A parsed CSV as `pd.read_csv` produces it: named columns of numbers
(row-aligned, one entry per data row). -/
abbrev Csv : Type := List (String × List ℚ)

/-- `pd.read_csv` (line 5): parses whatever columns the file has, with no
check that any particular column is present.  A missing or unreadable
file (modelled as `none`) raises. -/
def load (file : Option Csv) : Except Err Csv :=
  match file with
  | none => .error .ioError
  | some csv => .ok csv

/-- Column access `df[name]`: KeyError when the column is absent. -/
def getCol (df : Csv) (name : String) : Except Err (List ℚ) :=
  match df.lookup name with
  | some c => .ok c
  | none => .error .keyError

/-- `.iloc[0]`: IndexError on an empty column. -/
def iloc0 (s : List ℚ) : Except Err ℚ :=
  match s with
  | [] => .error .indexError
  | x :: _ => .ok x

/-- The data the script hands to matplotlib: panel A (errorbar plus the
normalized theoretical curve), panel B (the two log-log series) and the
efficiency figure in the caption. -/
structure PlotData where
  panelA_x : List ℚ
  panelA_y : List ℚ
  panelA_err : List ℚ
  panelA_theory : List PF
  panelB_x : List ℚ
  panelB_y : List ℚ
  panelB_theory : List ℚ
  caption_eff : PF
deriving DecidableEq

/-- The whole script as one pass, in source order: read the CSV, access
GridSize / ActualTime / StdDev (line 9), TheoreticalComplexity and the
two `.iloc[0]` anchors (line 12), ActualComparisons (line 23), then
build the plotted series and the efficiency caption.  Each column access
is a pure read: the loaded table is returned unchanged alongside the
plot data. -/
def script (file : Option Csv) : Except Err (PlotData × Csv) :=
  match load file with
  | .error e => .error e
  | .ok df =>
  match getCol df "GridSize" with
  | .error e => .error e
  | .ok gs =>
  match getCol df "ActualTime" with
  | .error e => .error e
  | .ok atimes =>
  match getCol df "StdDev" with
  | .error e => .error e
  | .ok sd =>
  match getCol df "TheoreticalComplexity" with
  | .error e => .error e
  | .ok tc =>
  match iloc0 atimes with
  | .error e => .error e
  | .ok a0 =>
  match iloc0 tc with
  | .error e => .error e
  | .ok t0 =>
  match getCol df "ActualComparisons" with
  | .error e => .error e
  | .ok ac =>
      .ok (⟨gs, atimes, sd,
            tc.map fun t => mulFin t (scalarDiv a0 t0),
            gs, ac, tc,
            pfMean ((ac.zip tc).map fun p => mulFin 100 (scalarDiv p.1 p.2))⟩, df)

/-- The 3-row example table from the spec (§8): rows are
(gridSize, actualTime, stdDev, actualComparisons, theoreticalComplexity). -/
def rows3 : List Row :=
  [⟨8, 10, 1/2, 100, 96⟩, ⟨16, 45, 2, 500, 512⟩, ⟨32, 200, 8, 2500, 2560⟩]

/-- The same table with GridSize, ActualTime and StdDev altered but the
two count columns kept. -/
def rows3alt : List Row :=
  [⟨1, 0, 0, 100, 96⟩, ⟨2, 1, 5, 500, 512⟩, ⟨3, 7, 9, 2500, 2560⟩]

/-- A single row whose theoreticalComplexity is zero. -/
def zeroAnchorRow : Row := ⟨8, 10, 1/2, 100, 0⟩

/-- The spec's 3-row example as a CSV. -/
def csv3 : Csv :=
  [("GridSize", [8, 16, 32]), ("ActualTime", [10, 45, 200]), ("StdDev", [1/2, 2, 8]),
   ("ActualComparisons", [100, 500, 2500]), ("TheoreticalComplexity", [96, 512, 2560])]

/-- The same CSV with the StdDev column removed. -/
def csvNoStd : Csv :=
  [("GridSize", [8, 16, 32]), ("ActualTime", [10, 45, 200]),
   ("ActualComparisons", [100, 500, 2500]), ("TheoreticalComplexity", [96, 512, 2560])]

/-- What the script plots for the 3-row example (the rational values are
left in the shape the computation produces: the normalized curve is
96*(10/96) = 10, 512*(10/96) = 160/3, 2560*(10/96) = 800/3, and the
caption carries the efficiency (1/3)*(10000/96 + 50000/512 + 250000/2560)
= 14375/144 ≈ 99.8). -/
def pd3 : PlotData :=
  ⟨[8, 16, 32], [10, 45, 200], [1/2, 2, 8],
   [.fin (96 * (10 / 96)), .fin (512 * (10 / 96)), .fin (2560 * (10 / 96))],
   [8, 16, 32], [100, 500, 2500], [96, 512, 2560],
   .fin (((3 : ℕ) : ℚ)⁻¹ *
     (100 * (100 / 96) + (100 * (500 / 512) + (100 * (2500 / 2560) + 0))))⟩

/-- Multiplying a finite scalar into a non-finite float value never
produces a finite value. -/
theorem mulFin_not_finite (x : PF) (hx : x.finite = false) (t : ℚ) :
    (mulFin t x).finite = false := by
  cases x with
  | fin q => simp [PF.finite] at hx
  | inf => simp only [mulFin]; split_ifs <;> rfl
  | neginf => simp only [mulFin]; split_ifs <;> rfl
  | nan => rfl

/-- Division by a zero denominator never produces a finite value. -/
theorem scalarDiv_zero_not_finite (a : ℚ) : (scalarDiv a 0).finite = false := by
  simp only [scalarDiv, if_pos rfl]
  split_ifs <;> rfl

/-- Summing a list of finite values gives the finite sum. -/
theorem pfSum_map_fin {α : Type} (l : List α) (g : α → ℚ) :
    pfSum (l.map fun x => PF.fin (g x)) = .fin ((l.map g).sum) := by
  induction l with
  | nil => rfl
  | cons a t ih =>
      show pfAdd (.fin (g a)) (pfSum (t.map fun x => PF.fin (g x))) = _
      rw [ih]
      simp [pfAdd]

/-- Values that are never NaN survive the NaN filter of the pandas
mean. -/
theorem filter_not_nan {α : Type} (l : List α) (f : α → PF)
    (hf : ∀ x, (f x).isNan = false) :
    (l.map f).filter (fun x => !x.isNan) = l.map f := by
  rw [List.filter_eq_self]
  intro a ha
  obtain ⟨x, _, rfl⟩ := List.mem_map.mp ha
  rw [hf x]
  rfl

/-- The pandas mean of a nonempty list of finite values is the exact
arithmetic mean. -/
theorem pfMean_map_fin {α : Type} (l : List α) (g : α → ℚ) (hl : l ≠ []) :
    pfMean (l.map fun x => PF.fin (g x)) = .fin ((l.map g).sum / (l.length : ℚ)) := by
  obtain ⟨a, t, rfl⟩ := List.exists_cons_of_ne_nil hl
  have hfilter := filter_not_nan (a :: t) (fun x => PF.fin (g x)) (fun x => rfl)
  simp only [pfMean, hfilter]
  rw [show (((a :: t).map fun x => PF.fin (g x)).isEmpty) = false from rfl,
    if_neg Bool.false_ne_true, pfSum_map_fin, List.length_map]
  show PF.fin ((((a :: t).length : ℚ))⁻¹ * ((a :: t).map g).sum) = _
  rw [inv_mul_eq_div]

/-- Shared form of the efficiency computation on valid input: on a
nonempty table with nonzero theoretical column it is the exact mean of
actualComparisons / theoreticalComplexity * 100. -/
theorem efficiency_eq_mean (rows : List Row) (hne : rows ≠ [])
    (hz : ∀ r ∈ rows, r.theoreticalComplexity ≠ 0) :
    efficiency rows =
      .fin ((rows.map fun r =>
        r.actualComparisons / r.theoreticalComplexity * 100).sum / (rows.length : ℚ)) := by
  have hmap : (rows.map fun r =>
      mulFin 100 (scalarDiv r.actualComparisons r.theoreticalComplexity)) =
      rows.map fun r => PF.fin (r.actualComparisons / r.theoreticalComplexity * 100) := by
    apply List.map_congr_left
    intro r hr
    rw [scalarDiv, if_neg (hz r hr)]
    show PF.fin (100 * (r.actualComparisons / r.theoreticalComplexity)) = _
    rw [mul_comm]
  rw [efficiency, hmap, pfMean_map_fin _ _ hne]

/-- C1: for a table with at least one row whose first
theoreticalComplexity is nonzero, theoretical_normalized succeeds with a
list of the same length whose element i is
rows[i].theoreticalComplexity * (rows[0].actualTime / rows[0].theoreticalComplexity). -/
theorem normalized_spec (r0 : Row) (rest : List Row)
    (ht : r0.theoreticalComplexity ≠ 0) :
    ∃ ys : List PF,
      theoretical_normalized (r0 :: rest) = .ok ys ∧
      ys.length = (r0 :: rest).length ∧
      ∀ (i : ℕ) (hy : i < ys.length) (hi : i < (r0 :: rest).length),
        ys[i] = .fin (((r0 :: rest)[i]).theoreticalComplexity *
          (r0.actualTime / r0.theoreticalComplexity)) := by
  refine ⟨_, rfl, by simp [theoretical_normalized], ?_⟩
  intro i hy hi
  simp only [List.getElem_map, scalarDiv, if_neg ht, mulFin]

/-- C1 witness: the property instantiated on the spec's 3-row example. -/
theorem normalized_spec_witness :
    ∃ ys : List PF,
      theoretical_normalized rows3 = .ok ys ∧
      ys.length = rows3.length ∧
      ∀ (i : ℕ) (hy : i < ys.length) (hi : i < rows3.length),
        ys[i] = .fin ((rows3[i]).theoreticalComplexity * ((10 : ℚ) / 96)) :=
  normalized_spec ⟨8, 10, 1/2, 100, 96⟩ [⟨16, 45, 2, 500, 512⟩, ⟨32, 200, 8, 2500, 2560⟩]
    (by norm_num)

/-- C2: on a nonempty table whose theoreticalComplexity entries are all
nonzero, efficiency is the arithmetic mean over the rows of
actualComparisons / theoreticalComplexity * 100. -/
theorem computeEfficiency_is_mean (rows : List Row) (hne : rows ≠ [])
    (hz : ∀ r ∈ rows, r.theoreticalComplexity ≠ 0) :
    efficiency rows =
      .fin ((rows.map fun r =>
        r.actualComparisons / r.theoreticalComplexity * 100).sum / (rows.length : ℚ)) :=
  efficiency_eq_mean rows hne hz

/-- C2 witness: the mean formula on the spec's 3-row example. -/
theorem computeEfficiency_is_mean_witness :
    efficiency rows3 =
      .fin ((rows3.map fun r =>
        r.actualComparisons / r.theoreticalComplexity * 100).sum / (rows3.length : ℚ)) :=
  computeEfficiency_is_mean rows3 (by decide) (by decide)

/-- C3 counterexample: on a one-row table whose first (and only)
theoreticalComplexity is zero, theoretical_normalized does not fail: it
returns a NaN entry (the anchor division gives inf, then 0 * inf is
NaN). -/
theorem normalized_zero_counterexample :
    theoretical_normalized [zeroAnchorRow] = .ok [.nan] := rfl

/-- C3 amended: theoretical_normalized fails (IndexError) only on the
empty table; on a table whose first theoreticalComplexity is zero it
succeeds, and every returned entry is non-finite (inf, -inf or NaN)
rather than an error being raised. -/
theorem normalized_zero_amended :
    theoretical_normalized ([] : List Row) = .error .indexError ∧
    ∀ (r0 : Row) (rest : List Row), r0.theoreticalComplexity = 0 →
      ∃ ys, theoretical_normalized (r0 :: rest) = .ok ys ∧
        ∀ y ∈ ys, y.finite = false := by
  refine ⟨rfl, ?_⟩
  intro r0 rest h0
  refine ⟨_, rfl, ?_⟩
  intro y hy
  obtain ⟨r, _, rfl⟩ := List.mem_map.mp hy
  rw [h0]
  exact mulFin_not_finite _ (scalarDiv_zero_not_finite r0.actualTime) _

/-- C3 amended witness: the zero-anchor single-row table. -/
theorem normalized_zero_amended_witness :
    ∃ ys, theoretical_normalized [zeroAnchorRow] = .ok ys ∧
      ∀ y ∈ ys, y.finite = false :=
  normalized_zero_amended.2 zeroAnchorRow [] rfl

/-- C4 counterexample: on the spec's 3-row example the efficiency is
exactly 14375/144 ≈ 99.83 percent, which is not approximately 99.1: it
differs from 99.1 by more than 0.7. -/
theorem efficiency_rows3_not_99_1 :
    efficiency rows3 = .fin (14375/144) ∧
    (7/10 : ℚ) < |(14375/144 : ℚ) - 991/10| := by
  refine ⟨?_, by rw [abs_of_pos (by norm_num)]; norm_num⟩
  rw [efficiency_eq_mean rows3 (by decide) (by decide)]
  norm_num [rows3]

/-- C4 amended: on the spec's 3-row example the efficiency is
mean(100/96, 500/512, 2500/2560) * 100 exactly, which is approximately
99.8 percent (within 0.1). -/
theorem efficiency_rows3_value :
    efficiency rows3 = .fin ((100/96 + 500/512 + 2500/2560) / 3 * 100) ∧
    |((100/96 + 500/512 + 2500/2560 : ℚ) / 3 * 100) - 998/10| < 1/10 := by
  refine ⟨?_, by rw [abs_of_pos (by norm_num)]; norm_num⟩
  rw [efficiency_eq_mean rows3 (by decide) (by decide)]
  norm_num [rows3]

/-- C5 counterexample: load succeeds on a CSV missing the StdDev column;
it performs no column-presence check at all. -/
theorem load_missing_stddev_succeeds : load (some csvNoStd) = .ok csvNoStd := rfl

/-- C5 amended: load parses any readable CSV without checking that any
column is present (it fails only on a missing/unreadable file); a CSV
missing the StdDev column makes the run fail later, with a KeyError at
the first access of that column during rendering. -/
theorem load_no_column_check :
    (∀ csv : Csv, load (some csv) = .ok csv) ∧
    load none = .error .ioError ∧
    script (some csvNoStd) = .error .keyError :=
  ⟨fun _ => rfl, rfl, rfl⟩

/-- C6: with a nonzero first theoreticalComplexity, the first element of
the normalized series equals rows[0].actualTime exactly. -/
theorem normalized_head_eq_actualTime (r0 : Row) (rest : List Row)
    (ht : r0.theoreticalComplexity ≠ 0) :
    ∃ ys, theoretical_normalized (r0 :: rest) = .ok ys ∧
      ys.head? = some (.fin r0.actualTime) := by
  refine ⟨_, rfl, ?_⟩
  show some (mulFin r0.theoreticalComplexity
    (scalarDiv r0.actualTime r0.theoreticalComplexity)) = _
  rw [scalarDiv, if_neg ht]
  show some (PF.fin (r0.theoreticalComplexity *
    (r0.actualTime / r0.theoreticalComplexity))) = _
  rw [mul_comm, div_mul_cancel₀ _ ht]

/-- C6 witness: the head of the normalized series of the 3-row example
is the first actualTime, 10. -/
theorem normalized_head_eq_actualTime_witness :
    ∃ ys, theoretical_normalized rows3 = .ok ys ∧ ys.head? = some (.fin 10) :=
  normalized_head_eq_actualTime ⟨8, 10, 1/2, 100, 96⟩
    [⟨16, 45, 2, 500, 512⟩, ⟨32, 200, 8, 2500, 2560⟩] (by norm_num)

/-- C7: efficiency is invariant under permutation of the rows, for a
nonempty table whose theoreticalComplexity entries are all nonzero. -/
theorem efficiency_perm_invariant (rows rows' : List Row) (hp : rows.Perm rows')
    (hne : rows ≠ []) (hz : ∀ r ∈ rows, r.theoreticalComplexity ≠ 0) :
    efficiency rows' = efficiency rows := by
  have hne' : rows' ≠ [] := fun h => hne (List.Perm.eq_nil (h ▸ hp))
  have hz' : ∀ r ∈ rows', r.theoreticalComplexity ≠ 0 := fun r hr =>
    hz r (hp.mem_iff.mpr hr)
  rw [efficiency_eq_mean rows hne hz, efficiency_eq_mean rows' hne' hz',
    hp.length_eq, List.Perm.sum_eq (hp.map _)]

/-- C7 witness: swapping the two rows of a 2-row table leaves the
efficiency unchanged. -/
theorem efficiency_perm_invariant_witness :
    efficiency [⟨16, 45, 2, 500, 512⟩, ⟨8, 10, 1/2, 100, 96⟩] =
      efficiency [⟨8, 10, 1/2, 100, 96⟩, ⟨16, 45, 2, 500, 512⟩] :=
  efficiency_perm_invariant _ _ (List.Perm.swap _ _ _) (by decide) (by decide)

/-- C8: the script never mutates the loaded table: whenever the run
succeeds, the table it finishes with is exactly the table load
produced. -/
theorem script_preserves_table (file : Option Csv) (out : PlotData) (df' : Csv)
    (h : script file = .ok (out, df')) : load file = .ok df' := by
  cases file with
  | none => exact Except.noConfusion h
  | some csv =>
    simp only [script, load] at h ⊢
    repeat' split at h
    any_goals exact Except.noConfusion h
    injection h with h1
    rw [Prod.mk.injEq] at h1
    rw [← h1.2]

/-- C8 witness: on the 3-row example CSV the run succeeds and finishes
with the loaded table. -/
theorem script_preserves_table_witness : load (some csv3) = .ok csv3 :=
  script_preserves_table (some csv3) pd3 csv3 rfl

/-- C9: multiplying every row's theoreticalComplexity by one positive
constant leaves the normalized series unchanged. -/
theorem normalized_scale_invariant (c : ℚ) (hc : 0 < c) (r0 : Row) (rest : List Row)
    (ht : r0.theoreticalComplexity ≠ 0) :
    theoretical_normalized ((r0 :: rest).map (scaleTheo c)) =
      theoretical_normalized (r0 :: rest) := by
  have hct : c * r0.theoreticalComplexity ≠ 0 := mul_ne_zero (ne_of_gt hc) ht
  have h1 : theoretical_normalized ((r0 :: rest).map (scaleTheo c)) =
      .ok (((r0 :: rest).map (scaleTheo c)).map fun r =>
        mulFin r.theoreticalComplexity
          (scalarDiv r0.actualTime (c * r0.theoreticalComplexity))) := rfl
  have h2 : theoretical_normalized (r0 :: rest) =
      .ok ((r0 :: rest).map fun r =>
        mulFin r.theoreticalComplexity
          (scalarDiv r0.actualTime r0.theoreticalComplexity)) := rfl
  rw [h1, h2, List.map_map, Except.ok.injEq]
  apply List.map_congr_left
  intro r _
  show mulFin (c * r.theoreticalComplexity)
      (scalarDiv r0.actualTime (c * r0.theoreticalComplexity)) =
    mulFin r.theoreticalComplexity (scalarDiv r0.actualTime r0.theoreticalComplexity)
  rw [scalarDiv, scalarDiv, if_neg hct, if_neg ht]
  show PF.fin (c * r.theoreticalComplexity *
      (r0.actualTime / (c * r0.theoreticalComplexity))) =
    PF.fin (r.theoreticalComplexity * (r0.actualTime / r0.theoreticalComplexity))
  congr 1
  field_simp
  ring

/-- C9 witness: doubling the theoretical column of the 3-row example
leaves the normalized series unchanged. -/
theorem normalized_scale_invariant_witness :
    theoretical_normalized (rows3.map (scaleTheo 2)) = theoretical_normalized rows3 :=
  normalized_scale_invariant 2 (by norm_num) ⟨8, 10, 1/2, 100, 96⟩
    [⟨16, 45, 2, 500, 512⟩, ⟨32, 200, 8, 2500, 2560⟩] (by norm_num)

/-- C10: efficiency reads only the ActualComparisons and
TheoreticalComplexity columns: two tables agreeing there (and differing
arbitrarily in GridSize, ActualTime, StdDev) get the same efficiency. -/
theorem efficiency_ignores_timing (rows1 rows2 : List Row)
    (hac : rows1.map Row.actualComparisons = rows2.map Row.actualComparisons)
    (htc : rows1.map Row.theoreticalComplexity = rows2.map Row.theoreticalComplexity) :
    efficiency rows1 = efficiency rows2 := by
  have key : ∀ rows : List Row,
      (rows.map fun r =>
        mulFin 100 (scalarDiv r.actualComparisons r.theoreticalComplexity)) =
      ((rows.map Row.actualComparisons).zip (rows.map Row.theoreticalComplexity)).map
        fun p => mulFin 100 (scalarDiv p.1 p.2) := by
    intro rows
    rw [List.zip_map', List.map_map]
    rfl
  rw [efficiency, efficiency, key, key, hac, htc]

/-- C10 witness: the example table and a table with scrambled timing
columns but the same count columns get the same efficiency. -/
theorem efficiency_ignores_timing_witness :
    efficiency rows3 = efficiency rows3alt :=
  efficiency_ignores_timing rows3 rows3alt rfl rfl

end PlotDC
